import Mathlib

/-!
Verification of the Qudi `Mapper` module (`core/mapper.py`): a bidirectional
widget-to-model property binding registry.  The embedding below mirrors the
Python source.  Values flowing between widget and model are modelled as `Int`.
Python exceptions are modelled by the `PyError` structure, carrying the Python
exception type that was raised together with the formatted message; every
`raise Exception(...)` in the source becomes an error with type
`PyExcType.exception` and the message built exactly as the source formats it.

Side effects on the widget and model property values are threaded through the
state explicitly, and each setter call is additionally recorded in an event
log so that "number of writes" properties can be stated.
-/

/-- Python exception classes raised by the code under consideration.
`exception` is the bare `Exception` class used throughout `mapper.py`;
`typeError` is raised by `functools.partial` when its first argument is not
callable; `attributeError` by `getattr` without a default. -/
inductive PyExcType where
  | exception
  | typeError
  | attributeError
deriving DecidableEq, Repr

/-- A raised Python exception: its class and its formatted message. -/
structure PyError where
  ty : PyExcType
  msg : String
deriving DecidableEq, Repr

/-- `SUBMIT_POLICY_AUTO = 0`: automatically submit changes. -/
def SUBMIT_POLICY_AUTO : Int := 0

/-- `SUBMIT_POLICY_MANUAL = 1`: wait with submitting changes until
`submit()` is called. -/
def SUBMIT_POLICY_MANUAL : Int := 1

/-- The `Converter` class: a pair of value transforms between widget and
model representation (the default converter methods are both the
identity; an absent converter is modelled as `Option.none` at use sites,
matching the `is not None` checks in the source). -/
structure Converter where
  widget_to_model : Int → Int
  model_to_widget : Int → Int

/-- `value = converter.widget_to_model(value)` when a converter is present,
`value` unchanged otherwise (mirrors the
`if self._mappings[widget]['converter'] is not None:` pattern). -/
def convWidgetToModel (conv : Option Converter) (v : Int) : Int :=
  match conv with
  | none => v
  | some c => c.widget_to_model v

/-- `value = converter.model_to_widget(value)` when a converter is present,
`value` unchanged otherwise. -/
def convModelToWidget (conv : Option Converter) (v : Int) : Int :=
  match conv with
  | none => v
  | some c => c.model_to_widget v

/-- One entry of the `Mapper._mappings` dictionary, together with the state
of the two bound property endpoints.

The widget side: `widget_value` is the current value of the bound widget
property (read by `widget_property_getter`); `widget_setter_store` is the
semantics of `meta_property.write(widget, v)` — `none` means the write
raises, `some w` means the stored property value becomes `w` (a widget may
normalise, e.g. a spin box clamps); `widget_setter_fires` records whether
the property write synchronously emits the property's notify signal.

The model side is analogous: `model_value` is what `model_property_getter()`
returns, `model_setter_store` the semantics of
`model_property_setter(v)` (with `none` meaning the call raises — this also
covers a mapping whose stored setter is `None`, where the call raises a
`TypeError`), `model_setter_fires` whether the model setter synchronously
emits the model property notifier, and `has_model_notifier` whether
`model_property_notifier` is not `None` (so that the emission is connected
to `_on_model_notification` at all).

The two `..._notifications_disabled` booleans are the suppression flags of
the dictionary entry. -/
structure Mapping where
  widget_property_name : String
  widget_value : Int
  widget_setter_store : Int → Option Int
  widget_setter_fires : Bool
  widget_property_notifications_disabled : Bool
  model_value : Int
  model_setter_store : Int → Option Int
  model_setter_fires : Bool
  has_model_notifier : Bool
  model_property_notifications_disabled : Bool
  converter : Option Converter

/-- An observable side effect of a propagation handler: a call of the model
property setter or of the widget property setter, carrying the value
passed to the setter. -/
inductive Event where
  | modelWrite (v : Int)
  | widgetWrite (v : Int)
deriving DecidableEq, Repr

/-- Result of running a propagation handler on one mapping: the mapping
state when the handler returns (or when the exception it propagates leaves
it), the list of setter calls it performed, and whether it raised. -/
structure HResult where
  st : Mapping
  events : List Event
  raised : Bool

/-- `Mapper._on_model_notification(widget)`, acting on the mapping for
`widget`.

Mirrors the source: read `value` from the model getter; if
`model_property_notifications_disabled` is set, read the widget value,
convert it with `converter.widget_to_model`, and return if it equals
`value`; otherwise convert `value` with `converter.model_to_widget`, set
`widget_property_notifications_disabled = True`, call the widget property
setter inside `try`, and clear the flag in `finally`.

If the widget setter emits the widget property's notify signal, the
connected `_on_widget_property_notification` runs while
`widget_property_notifications_disabled` is `True` and returns at its
first guard without reading or writing anything, so that nested call has
no effect and is not re-modelled here. -/
def onModelNotification (m : Mapping) : HResult :=
  let value := m.model_value
  if m.model_property_notifications_disabled
      ∧ value = convWidgetToModel m.converter m.widget_value then
    ⟨m, [], false⟩
  else
    let value' := convModelToWidget m.converter value
    match m.widget_setter_store value' with
    | none =>
        ⟨{ m with widget_property_notifications_disabled := false }, [], true⟩
    | some w =>
        ⟨{ m with widget_value := w
                  widget_property_notifications_disabled := false },
         [Event.widgetWrite value'], false⟩

/-- `Mapper._on_widget_property_notification(widget)`, acting on the mapping
for `widget`, with the registry's current `_submit_policy` passed in.

Mirrors the source: return if
`widget_property_notifications_disabled`; if the policy is
`SUBMIT_POLICY_AUTO`, set `model_property_notifications_disabled = True`,
read the widget value, convert it with `converter.widget_to_model`, call
the model property setter inside `try`, and clear the flag in `finally`;
under any other policy do nothing (`else: pass`).

If the model setter stores successfully and synchronously emits the model
property notifier (and one is connected), the connected
`_on_model_notification` runs — while
`model_property_notifications_disabled` is still `True` — before the
setter call returns; an exception it raises propagates through the setter
call into the `finally` block. -/
def onWidgetPropertyNotification (policy : Int) (m : Mapping) : HResult :=
  if m.widget_property_notifications_disabled then
    ⟨m, [], false⟩
  else if policy = SUBMIT_POLICY_AUTO then
    let value := convWidgetToModel m.converter m.widget_value
    match m.model_setter_store value with
    | none =>
        ⟨{ m with model_property_notifications_disabled := false }, [], true⟩
    | some mv =>
        let m1 := { m with model_value := mv
                           model_property_notifications_disabled := true }
        if m.model_setter_fires ∧ m.has_model_notifier then
          let r := onModelNotification m1
          ⟨{ r.st with model_property_notifications_disabled := false },
           Event.modelWrite value :: r.events, r.raised⟩
        else
          ⟨{ m1 with model_property_notifications_disabled := false },
           [Event.modelWrite value], false⟩
  else
    ⟨m, [], false⟩

/-- The model-setter calls in an event list, with the written values. -/
def modelWrites (evs : List Event) : List Int :=
  evs.filterMap (fun e =>
    match e with
    | Event.modelWrite v => some v
    | Event.widgetWrite _ => none)

/-- The widget-setter calls in an event list, with the written values. -/
def widgetWrites (evs : List Event) : List Int :=
  evs.filterMap (fun e =>
    match e with
    | Event.modelWrite _ => none
    | Event.widgetWrite v => some v)

/-- The result of the `isinstance` tests `add_mapping` performs on the
widget when guessing the bound property: which of the Qt widget base
classes the concrete widget type derives from.  (A concrete widget can
derive from several of these; the source tests them in a fixed order.) -/
structure WidgetType where
  isLineEdit : Bool
  isAbstractButton : Bool
  isSpinBox : Bool
  isDoubleSpinBox : Bool
  isAbstractSlider : Bool
  isComboBox : Bool
deriving DecidableEq, Repr

/-- The property-guessing chain of `add_mapping` (run when
`widget_property_name == ''`): `QLineEdit → 'text'`,
`QAbstractButton → 'checked'`,
`QSpinBox`/`QDoubleSpinBox`/`QAbstractSlider → 'value'`,
`QComboBox → 'currentIndex'`, tested in this order with the first
matching `isinstance` winning; `none` when no test matches. -/
def guessWidgetProperty (t : WidgetType) : Option String :=
  if t.isLineEdit then some "text"
  else if t.isAbstractButton then some "checked"
  else if t.isSpinBox || t.isDoubleSpinBox || t.isAbstractSlider then
    some "value"
  else if t.isComboBox then some "currentIndex"
  else none

/-- What `widget.metaObject()` reports about one named property, together
with the dynamic state of that property: `value` is its current value (what
`meta_property.read(widget)` returns), `write_store` the semantics of
`meta_property.write(widget, v)` (`none`: the write raises; `some w`: the
stored value becomes `w`), and `write_fires` whether the write emits the
property's notify signal synchronously. -/
structure MetaProperty where
  hasNotifySignal : Bool
  isReadable : Bool
  isWritable : Bool
  value : Int
  write_store : Int → Option Int
  write_fires : Bool

/-- A widget as `add_mapping` sees it: an identity (the dictionary key),
`repr(widget)` and `widget.__class__.__name__` for error messages, the
`isinstance` facts, and the meta-object property table
(`indexOfProperty` returning `-1` is modelled by a failing lookup). -/
structure Widget where
  id : Nat
  repr : String
  className : String
  ty : WidgetType
  properties : List (String × MetaProperty)

/-- A class attribute of the model, as found by
`getattr(model.__class__, name, None)`: either a `property` object (with
or without `fget`/`fset`) or some other attribute. -/
inductive ModelAttrKind where
  | pyProperty (hasFget : Bool) (hasFset : Bool)
  | nonProperty
deriving DecidableEq, Repr

/-- The `model_getter` argument of `add_mapping`: a string (to be resolved
against the model's class) or a callable getter. -/
inductive ModelGetterArg where
  | pyStr (s : String)
  | pyCallable
deriving DecidableEq, Repr

/-- The `model_setter` argument of `add_mapping` (default `None`), and also
the rebound value it holds after the property-derivation step: `None`, a
callable with the given write semantics, or a string to be resolved
against the model instance. -/
inductive ModelSetterArg where
  | pyNone
  | pyCallable (store : Int → Option Int) (fires : Bool)
  | pyStr (s : String)

/-- The model endpoint: its class attribute table (for resolving a string
`model_getter`), its instance attribute table (for resolving a string
`model_setter`; the `Bool` says whether that attribute is callable),
the current value the model getter returns, and the write semantics of
the model's own setter (used when the setter is derived from the
property's `fset` or resolved by name). -/
structure Model where
  classAttrs : List (String × ModelAttrKind)
  instAttrs : List (String × Bool)
  value : Int
  setter_store : Int → Option Int
  setter_fires : Bool

/-- The model-accessor resolution steps of `add_mapping` (lines 182-203 of
`mapper.py`), returning the write semantics of the setter that ends up
stored as `model_property_setter`.

When `model_getter` is a string naming a `property` of the model's class:
`model_getter` is rebound to `functools.partial(attr.fget, model)` —
`functools.partial` raises `TypeError('the first argument must be
callable')` when `attr.fget` is `None`; when no `model_setter` was
supplied, `model_setter` is rebound to
`functools.partial(attr.fset, model)`, which likewise raises `TypeError`
when `attr.fset` is `None`.  The subsequent
`if model_getter is None: raise Exception('Attribute ... readonly.')`
tests `model_getter`, which was just rebound to the `functools.partial`
object and so is never `None`: that branch cannot run; it is kept here,
guarded by the (constant) result of that `is None` test.

A mapping whose stored `model_property_setter` is `None` raises a
`TypeError` when the handler later calls it; this is modelled by the
always-raising write semantics. -/
def resolveModelSetter (model : Model) (model_getter : ModelGetterArg)
    (model_setter : ModelSetterArg) :
    Except PyError ((Int → Option Int) × Bool) := do
  let ms1 : ModelSetterArg ←
    match model_getter with
    | .pyCallable => Except.ok model_setter
    | .pyStr gname =>
      match model.classAttrs.lookup gname with
      | none =>
          Except.error ⟨.exception, "Model has no attribute " ++ gname⟩
      | some .nonProperty => Except.ok model_setter
      | some (.pyProperty hasFget hasFset) =>
        if ¬ hasFget then
          Except.error ⟨.typeError, "the first argument must be callable"⟩
        else
          match model_setter with
          | .pyNone =>
            if ¬ hasFset then
              Except.error ⟨.typeError, "the first argument must be callable"⟩
            else
              let model_getter_is_none := false
              if model_getter_is_none then
                Except.error
                  ⟨.exception, "Attribute " ++ gname ++ " of model is readonly."⟩
              else
                Except.ok (ModelSetterArg.pyCallable model.setter_store
                  model.setter_fires)
          | ms => Except.ok ms
  match ms1 with
  | .pyStr sname =>
    match model.instAttrs.lookup sname with
    | none =>
        Except.error ⟨.attributeError, "object has no attribute " ++ sname⟩
    | some isCallable =>
      if ¬ isCallable then
        Except.error ⟨.exception, sname ++ " is not callable"⟩
      else Except.ok (model.setter_store, model.setter_fires)
  | .pyNone => Except.ok (fun _ => none, false)
  | .pyCallable store fires => Except.ok (store, fires)

/-- The dictionary entry `add_mapping` stores for a successfully
constructed binding (`self._mappings[widget] = {...}`): both suppression
flags start `False`, the widget side comes from the resolved
meta-property, the model side from the model and the resolved setter
semantics `sem`. -/
def mkBinding (pname : String) (meta : MetaProperty) (model : Model)
    (notifier : Bool) (sem : (Int → Option Int) × Bool)
    (converter : Option Converter) : Mapping :=
  { widget_property_name := pname
    widget_value := meta.value
    widget_setter_store := meta.write_store
    widget_setter_fires := meta.write_fires
    widget_property_notifications_disabled := false
    model_value := model.value
    model_setter_store := sem.1
    model_setter_fires := sem.2
    has_model_notifier := notifier
    model_property_notifications_disabled := false
    converter := converter }

/-- The `Mapper` object: the shared `_submit_policy` and the `_mappings`
dictionary, modelled as an association list keyed by widget identity in
insertion order. -/
structure Mapper where
  submit_policy : Int
  mappings : List (Nat × Mapping)

/-- `Mapper.__init__`: policy `SUBMIT_POLICY_AUTO`, no mappings. -/
def Mapper.init : Mapper := ⟨SUBMIT_POLICY_AUTO, []⟩

/-- `Mapper.add_mapping(widget, model, model_getter,
model_property_notifier=None, model_setter=None, widget_property_name='',
converter=None)`.  `model_property_notifier` is modelled by whether a
notifier was supplied (resolution of a string notifier name against the
model is elided, as nothing later depends on the notifier's identity —
only on its presence).  On an exception the registry is returned
unchanged together with the error; all raises in the source happen before
`self._mappings[widget] = {...}`, the only mutation of the registry. -/
def add_mapping (mp : Mapper) (widget : Widget) (model : Model)
    (model_getter : ModelGetterArg)
    (model_property_notifier : Bool)
    (model_setter : ModelSetterArg)
    (widget_property_name : String)
    (converter : Option Converter) : Mapper × Option PyError :=
  if (mp.mappings.lookup widget.id).isSome then
    (mp, some ⟨.exception, "Widget " ++ widget.repr ++ " already mapped."⟩)
  else
    let guessed : Option String :=
      if widget_property_name = "" then guessWidgetProperty widget.ty
      else some widget_property_name
    match guessed with
    | none =>
      (mp, some ⟨.exception,
        "Property of widget " ++ widget.repr ++ " could not be guessed."⟩)
    | some pname =>
      match widget.properties.lookup pname with
      | none =>
        (mp, some ⟨.exception, "Property " ++ pname ++ " of widget "
          ++ widget.className ++ " not available."⟩)
      | some meta =>
        if ¬ meta.hasNotifySignal then
          (mp, some ⟨.exception, "Property " ++ pname ++ " of widget "
            ++ widget.className ++ " has no notify signal."⟩)
        else if ¬ meta.isReadable then
          (mp, some ⟨.exception, "Property " ++ pname ++ " of widget "
            ++ widget.className ++ " is not readable."⟩)
        else if ¬ meta.isWritable then
          (mp, some ⟨.exception, "Property " ++ pname ++ " of widget "
            ++ widget.className ++ " is not writable."⟩)
        else
          match resolveModelSetter model model_getter model_setter with
          | .error e => (mp, some e)
          | .ok sem =>
            ({ mp with mappings := mp.mappings
                ++ [(widget.id,
                     mkBinding pname meta model model_property_notifier sem
                       converter)] }, none)

/-- `Mapper.remove_mapping(widget)`: raises when the widget has no mapping,
otherwise disconnects both notifier subscriptions (the model-side one only
when a notifier was registered — no effect on the registry state) and
deletes the dictionary entry.  `wid` is the widget's identity,
`wrepr` its `repr` (used only in the error message). -/
def remove_mapping (mp : Mapper) (wid : Nat) (wrepr : String) :
    Mapper × Option PyError :=
  if (mp.mappings.lookup wid).isNone then
    (mp, some ⟨.exception, "Widget " ++ wrepr ++ " is not mapped."⟩)
  else
    ({ mp with mappings := mp.mappings.filter (fun p => p.1 != wid) }, none)

/-- `Mapper.clear_mapping()`: `for key in list(self._mappings.keys()):
self.remove_mapping(key)` — the key list is snapshotted first, and each
removal finds its key present and succeeds. -/
def clear_mapping (mp : Mapper) : Mapper :=
  (mp.mappings.map Prod.fst).foldl
    (fun acc k => (remove_mapping acc k "").1) mp

/-- Reading the `submit_policy` property. -/
def submit_policy_get (mp : Mapper) : Int := mp.submit_policy

/-- The `submit_policy` property setter: raises for a value outside
`[SUBMIT_POLICY_AUTO, SUBMIT_POLICY_MANUAL]` (before the assignment, so
the stored policy is unchanged in that case), otherwise stores it. -/
def submit_policy_set (mp : Mapper) (policy : Int) : Mapper × Option PyError :=
  if ¬ (policy = SUBMIT_POLICY_AUTO ∨ policy = SUBMIT_POLICY_MANUAL) then
    (mp, some ⟨.exception, "Unknown submit policy " ++ toString policy⟩)
  else
    ({ mp with submit_policy := policy }, none)

/-- Runs a propagation handler on every mapping in dictionary order —
`for widget in self._mappings: ...` — threading the per-mapping state and
collecting the events, each tagged with its widget's identity.  An
exception aborts the loop: the remaining mappings are not visited. -/
def runAll (f : Mapping → HResult) :
    List (Nat × Mapping) → List (Nat × Mapping) × List (Nat × Event) × Bool
  | [] => ([], [], false)
  | (w, m) :: rest =>
    let r := f m
    if r.raised then
      ((w, r.st) :: rest, r.events.map (fun e => (w, e)), true)
    else
      let t := runAll f rest
      ((w, r.st) :: t.1, r.events.map (fun e => (w, e)) ++ t.2.1, t.2.2)

/-- Result of `submit()`/`revert()` run on the UI thread: the mapper
afterwards, the logged setter calls, and whether an exception propagated
out. -/
structure OpResult where
  st : Mapper
  events : List (Nat × Event)
  raised : Bool

/-- The body of `Mapper.submit()` once on the UI thread: save
`_submit_policy`, set the policy to `SUBMIT_POLICY_AUTO` through the
property setter (which accepts it), run
`_on_widget_property_notification` for every mapping — each handler reads
the forced `AUTO` policy — and restore the saved policy in `finally`,
whether or not the loop raised (the saved value came out of
`_submit_policy`, which only ever holds `AUTO` or `MANUAL`, so the
restoring setter accepts it). -/
def Mapper.submit (mp : Mapper) : OpResult :=
  let saved := mp.submit_policy
  let r := runAll (onWidgetPropertyNotification SUBMIT_POLICY_AUTO) mp.mappings
  ⟨{ submit_policy := saved, mappings := r.1 }, r.2.1, r.2.2⟩

/-- The body of `Mapper.revert()` once on the UI thread:
`for widget in self._mappings: self._on_model_notification(widget)`. -/
def Mapper.revert (mp : Mapper) : OpResult :=
  let r := runAll onModelNotification mp.mappings
  ⟨{ mp with mappings := r.1 }, r.2.1, r.2.2⟩

/-- Result of calling `submit()`/`revert()` from an arbitrary thread.
`scheduledDelayMs = some d` records that `QTimer.singleShot(d, self.f)`
was posted (a fire-and-forget asynchronous self-call on the UI thread)
and the call returned immediately. -/
structure ThreadedResult where
  st : Mapper
  events : List (Nat × Event)
  raised : Bool
  scheduledDelayMs : Option Nat

/-- `Mapper.submit()` including its thread-affinity check: when
`QThread.currentThread()` is not the application instance's thread,
`QTimer.singleShot(0, self.submit)` is posted and the call returns
immediately, before the policy dance and the propagation loop. -/
def submitFromThread (currentThread appThread : Nat) (mp : Mapper) :
    ThreadedResult :=
  if ¬ currentThread = appThread then
    ⟨mp, [], false, some 0⟩
  else
    let r := mp.submit
    ⟨r.st, r.events, r.raised, none⟩

/-- `Mapper.revert()` including its thread-affinity check, analogous to
`submitFromThread`. -/
def revertFromThread (currentThread appThread : Nat) (mp : Mapper) :
    ThreadedResult :=
  if ¬ currentThread = appThread then
    ⟨mp, [], false, some 0⟩
  else
    let r := mp.revert
    ⟨r.st, r.events, r.raised, none⟩

/-- A registry-mutating operation, for stating invariants over arbitrary
operation sequences. -/
inductive RegOp where
  | add (widget : Widget) (model : Model) (mg : ModelGetterArg)
        (notifier : Bool) (ms : ModelSetterArg) (pname : String)
        (conv : Option Converter)
  | remove (wid : Nat) (wrepr : String)
  | clear

/-- Applies one registry operation; a raised exception leaves the registry
as it was. -/
def applyOp (mp : Mapper) : RegOp → Mapper
  | .add w mo mg n ms pn cv => (add_mapping mp w mo mg n ms pn cv).1
  | .remove wid wrepr => (remove_mapping mp wid wrepr).1
  | .clear => clear_mapping mp

/-- Applies a sequence of registry operations to a freshly constructed
mapper. -/
def applyOps (ops : List RegOp) : Mapper := ops.foldl applyOp Mapper.init

/-- The keys of the registry: one per binding, in insertion order. -/
def mappingKeys (mp : Mapper) : List Nat := mp.mappings.map Prod.fst

/-- Tagged model-setter calls in an operation-level event list. -/
def modelWritesTagged (evs : List (Nat × Event)) : List (Nat × Int) :=
  evs.filterMap (fun p =>
    match p.2 with
    | Event.modelWrite v => some (p.1, v)
    | Event.widgetWrite _ => none)

/-- Tagged widget-setter calls in an operation-level event list. -/
def widgetWritesTagged (evs : List (Nat × Event)) : List (Nat × Int) :=
  evs.filterMap (fun p =>
    match p.2 with
    | Event.modelWrite _ => none
    | Event.widgetWrite v => some (p.1, v))

/-- A concrete binding in the state reached right after a display-triggered
model write whose setter stored the value exactly: the model-side
suppression flag is still raised during the synchronous notifier
emission, and the model value equals the converted display value. -/
def mappingSuppressedEqual : Mapping :=
  { widget_property_name := "value"
    widget_value := 5
    widget_setter_store := fun v => some v
    widget_setter_fires := true
    widget_property_notifications_disabled := false
    model_value := 5
    model_setter_store := fun v => some v
    model_setter_fires := true
    has_model_notifier := true
    model_property_notifications_disabled := true
    converter := none }

/-- A registry holding only `mappingSuppressedEqual`. -/
def mapperSuppressedEqual : Mapper :=
  ⟨SUBMIT_POLICY_AUTO, [(0, mappingSuppressedEqual)]⟩

/-- A concrete quiescent binding whose display value (7) differs from the
model value (3), with an exactly-storing, synchronously-notifying model
setter. -/
def mappingEcho : Mapping :=
  { widget_property_name := "text"
    widget_value := 7
    widget_setter_store := fun v => some v
    widget_setter_fires := true
    widget_property_notifications_disabled := false
    model_value := 3
    model_setter_store := fun v => some v
    model_setter_fires := true
    has_model_notifier := true
    model_property_notifications_disabled := false
    converter := none }

/-- A mapper in `MANUAL` policy with two quiescent bindings (display values
9 and 2, exactly-storing model setters). -/
def mapperManualTwo : Mapper :=
  ⟨SUBMIT_POLICY_MANUAL,
   [(0, { widget_property_name := "value"
          widget_value := 9
          widget_setter_store := fun v => some v
          widget_setter_fires := true
          widget_property_notifications_disabled := false
          model_value := 7
          model_setter_store := fun v => some v
          model_setter_fires := true
          has_model_notifier := true
          model_property_notifications_disabled := false
          converter := none }),
    (1, { widget_property_name := "text"
          widget_value := 2
          widget_setter_store := fun v => some v
          widget_setter_fires := false
          widget_property_notifications_disabled := false
          model_value := 0
          model_setter_store := fun v => some v
          model_setter_fires := false
          has_model_notifier := false
          model_property_notifications_disabled := false
          converter := none })]⟩

/-- A quiescent binding whose model setter always raises. -/
def mappingRaisingSetter : Mapping :=
  { widget_property_name := "value"
    widget_value := 4
    widget_setter_store := fun _ => none
    widget_setter_fires := false
    widget_property_notifications_disabled := false
    model_value := 1
    model_setter_store := fun _ => none
    model_setter_fires := false
    has_model_notifier := true
    model_property_notifications_disabled := false
    converter := none }

/-- Both suppression flags of a binding are clear — the invariant state
outside any handler execution. -/
def flagsClear (m : Mapping) : Prop :=
  m.widget_property_notifications_disabled = false
  ∧ m.model_property_notifications_disabled = false

/-- The `isinstance` facts of a plain `QLineEdit`. -/
def lineEditType : WidgetType :=
  { isLineEdit := true, isAbstractButton := false, isSpinBox := false
    isDoubleSpinBox := false, isAbstractSlider := false, isComboBox := false }

/-- A fully usable `text` meta-property: notifying, readable, writable. -/
def metaTextProperty : MetaProperty :=
  { hasNotifySignal := true, isReadable := true, isWritable := true
    value := 0, write_store := fun v => some v, write_fires := true }

/-- A well-formed line-edit display endpoint. -/
def widgetLineEdit : Widget :=
  { id := 0, repr := "<QLineEdit object>", className := "QLineEdit"
    ty := lineEditType, properties := [("text", metaTextProperty)] }

/-- A line edit whose meta-object does not know the `text` property
(`indexOfProperty` returns `-1`). -/
def widgetNoSuchProperty : Widget :=
  { id := 1, repr := "<QLineEdit object>", className := "QLineEdit"
    ty := lineEditType, properties := [] }

/-- A line edit whose `text` property has no notify signal. -/
def widgetNoNotify : Widget :=
  { id := 2, repr := "<QLineEdit object>", className := "QLineEdit"
    ty := lineEditType
    properties := [("text", { metaTextProperty with hasNotifySignal := false })] }

/-- A line edit whose `text` property is not readable. -/
def widgetNotReadable : Widget :=
  { id := 3, repr := "<QLineEdit object>", className := "QLineEdit"
    ty := lineEditType
    properties := [("text", { metaTextProperty with isReadable := false })] }

/-- A line edit whose `text` property is not writable. -/
def widgetNotWritable : Widget :=
  { id := 4, repr := "<QLineEdit object>", className := "QLineEdit"
    ty := lineEditType
    properties := [("text", { metaTextProperty with isWritable := false })] }

/-- A model whose class has a read-write `data` property. -/
def modelPlain : Model :=
  { classAttrs := [("data", ModelAttrKind.pyProperty true true)]
    instAttrs := [], value := 5
    setter_store := fun v => some v, setter_fires := false }

/-- A model whose class has a getter-only `temperature` property (a
`property` descriptor with `fset is None`). -/
def modelReadOnlyProp : Model :=
  { classAttrs := [("temperature", ModelAttrKind.pyProperty true false)]
    instAttrs := [], value := 20
    setter_store := fun v => some v, setter_fires := false }

/-- The registry after successfully binding `widgetLineEdit` to
`modelPlain`. -/
def mapperWithLineEdit : Mapper :=
  (add_mapping Mapper.init widgetLineEdit modelPlain
    (ModelGetterArg.pyStr "data") false ModelSetterArg.pyNone "" none).1

/-- The `isinstance` facts of a plain `QComboBox`. -/
def comboBoxType : WidgetType :=
  { isLineEdit := false, isAbstractButton := false, isSpinBox := false
    isDoubleSpinBox := false, isAbstractSlider := false, isComboBox := true }

/-- The `isinstance` facts of a bare `QWidget`: no entry of the guessing
table matches. -/
def plainWidgetType : WidgetType :=
  { isLineEdit := false, isAbstractButton := false, isSpinBox := false
    isDoubleSpinBox := false, isAbstractSlider := false, isComboBox := false }

/-- A bare `QWidget` display endpoint. -/
def widgetPlain : Widget :=
  { id := 5, repr := "<QWidget object>", className := "QWidget"
    ty := plainWidgetType, properties := [] }

theorem modelWrites_nil : modelWrites [] = [] := rfl

theorem modelWrites_cons_model (v : Int) (evs : List Event) :
    modelWrites (Event.modelWrite v :: evs) = v :: modelWrites evs := rfl

theorem modelWrites_cons_widget (v : Int) (evs : List Event) :
    modelWrites (Event.widgetWrite v :: evs) = modelWrites evs := rfl

theorem widgetWrites_nil : widgetWrites [] = [] := rfl

theorem widgetWrites_cons_model (v : Int) (evs : List Event) :
    widgetWrites (Event.modelWrite v :: evs) = widgetWrites evs := rfl

theorem widgetWrites_cons_widget (v : Int) (evs : List Event) :
    widgetWrites (Event.widgetWrite v :: evs) = v :: widgetWrites evs := rfl

theorem modelWrites_onModelNotification (m : Mapping) :
    modelWrites (onModelNotification m).events = [] := by
  simp only [onModelNotification]
  split
  · rfl
  · split <;> rfl

theorem onModelNotification_wdis (m : Mapping)
    (h : m.widget_property_notifications_disabled = false) :
    (onModelNotification m).st.widget_property_notifications_disabled
      = false := by
  simp only [onModelNotification]
  split
  · exact h
  · split <;> rfl

theorem onModelNotification_mdis (m : Mapping) :
    (onModelNotification m).st.model_property_notifications_disabled
      = m.model_property_notifications_disabled := by
  simp only [onModelNotification]
  split
  · rfl
  · split <;> rfl

theorem onModelNotification_widgetWrites (m : Mapping)
    (hm : m.model_property_notifications_disabled = false)
    (hr : (onModelNotification m).raised = false) :
    widgetWrites (onModelNotification m).events
      = [convModelToWidget m.converter m.model_value] := by
  have hc : ¬ (m.model_property_notifications_disabled = true
      ∧ m.model_value = convWidgetToModel m.converter m.widget_value) := by
    simp [hm]
  simp only [onModelNotification, if_neg hc] at hr ⊢
  revert hr
  split <;> intro hr
  · simp at hr
  · rfl

theorem onWidget_auto_modelWrites (m : Mapping)
    (hw : m.widget_property_notifications_disabled = false)
    (hr : (onWidgetPropertyNotification SUBMIT_POLICY_AUTO m).raised = false) :
    modelWrites (onWidgetPropertyNotification SUBMIT_POLICY_AUTO m).events
      = [convWidgetToModel m.converter m.widget_value] := by
  have hw' : ¬ (m.widget_property_notifications_disabled = true) := by simp [hw]
  simp only [onWidgetPropertyNotification] at hr ⊢
  rw [if_neg hw', if_pos trivial] at hr ⊢
  revert hr
  split <;> intro hr
  · simp at hr
  · by_cases hf : (m.model_setter_fires = true ∧ m.has_model_notifier = true)
    · rw [if_pos hf]
      rw [modelWrites_cons_model, modelWrites_onModelNotification]
    · rw [if_neg hf]
      rfl

theorem modelWritesTagged_append (a b : List (Nat × Event)) :
    modelWritesTagged (a ++ b) = modelWritesTagged a ++ modelWritesTagged b := by
  simp [modelWritesTagged, List.filterMap_append]

theorem widgetWritesTagged_append (a b : List (Nat × Event)) :
    widgetWritesTagged (a ++ b)
      = widgetWritesTagged a ++ widgetWritesTagged b := by
  simp [widgetWritesTagged, List.filterMap_append]

theorem modelWritesTagged_map (w : Nat) (l : List Event) :
    modelWritesTagged (l.map (fun e => (w, e)))
      = (modelWrites l).map (fun v => (w, v)) := by
  induction l with
  | nil => rfl
  | cons e t ih =>
    cases e with
    | modelWrite v =>
      show (w, v) :: modelWritesTagged (t.map (fun e => (w, e))) = _
      rw [ih, modelWrites_cons_model, List.map_cons]
    | widgetWrite v =>
      show modelWritesTagged (t.map (fun e => (w, e))) = _
      rw [ih, modelWrites_cons_widget]

theorem widgetWritesTagged_map (w : Nat) (l : List Event) :
    widgetWritesTagged (l.map (fun e => (w, e)))
      = (widgetWrites l).map (fun v => (w, v)) := by
  induction l with
  | nil => rfl
  | cons e t ih =>
    cases e with
    | modelWrite v =>
      show widgetWritesTagged (t.map (fun e => (w, e))) = _
      rw [ih, widgetWrites_cons_model]
    | widgetWrite v =>
      show (w, v) :: widgetWritesTagged (t.map (fun e => (w, e))) = _
      rw [ih, widgetWrites_cons_widget, List.map_cons]

theorem runAll_submit_modelWrites (ms : List (Nat × Mapping))
    (h : ∀ p ∈ ms, p.2.widget_property_notifications_disabled = false
        ∧ (onWidgetPropertyNotification SUBMIT_POLICY_AUTO p.2).raised = false) :
    modelWritesTagged
        (runAll (onWidgetPropertyNotification SUBMIT_POLICY_AUTO) ms).2.1
      = ms.map (fun p =>
          (p.1, convWidgetToModel p.2.converter p.2.widget_value)) := by
  induction ms with
  | nil => rfl
  | cons p rest ih =>
    obtain ⟨w, m⟩ := p
    obtain ⟨hw, hr⟩ := h (w, m) (List.mem_cons_self _ _)
    have hrest := fun q hq => h q (List.mem_cons_of_mem _ hq)
    simp only [runAll]
    rw [if_neg (by simp [hr])]
    simp only [List.map_cons]
    rw [modelWritesTagged_append, modelWritesTagged_map,
      onWidget_auto_modelWrites m hw hr, ih hrest, List.map_cons,
      List.map_nil]
    rfl

theorem runAll_revert_widgetWrites (ms : List (Nat × Mapping))
    (h : ∀ p ∈ ms, p.2.model_property_notifications_disabled = false
        ∧ (onModelNotification p.2).raised = false) :
    widgetWritesTagged (runAll onModelNotification ms).2.1
      = ms.map (fun p =>
          (p.1, convModelToWidget p.2.converter p.2.model_value)) := by
  induction ms with
  | nil => rfl
  | cons p rest ih =>
    obtain ⟨w, m⟩ := p
    obtain ⟨hm, hr⟩ := h (w, m) (List.mem_cons_self _ _)
    have hrest := fun q hq => h q (List.mem_cons_of_mem _ hq)
    simp only [runAll]
    rw [if_neg (by simp [hr])]
    simp only [List.map_cons]
    rw [widgetWritesTagged_append, widgetWritesTagged_map,
      onModelNotification_widgetWrites m hm hr, ih hrest, List.map_cons,
      List.map_nil]
    rfl

theorem onModelNotification_shortCircuit (m : Mapping)
    (hm : m.model_property_notifications_disabled = true)
    (heq : m.model_value = convWidgetToModel m.converter m.widget_value) :
    onModelNotification m = ⟨m, [], false⟩ := by
  simp only [onModelNotification]
  rw [if_pos ⟨hm, heq⟩]

theorem onWidget_manual (m : Mapping) :
    onWidgetPropertyNotification SUBMIT_POLICY_MANUAL m = ⟨m, [], false⟩ := by
  simp only [onWidgetPropertyNotification]
  split
  · rfl
  · rw [if_neg (by decide : ¬ (SUBMIT_POLICY_MANUAL = SUBMIT_POLICY_AUTO))]

/-- Claim C1: when `_on_model_notification` runs with the binding's
`model_property_notifications_disabled` flag raised and the display value
converted by `converter.widget_to_model` equals the freshly read model
value, it returns without calling the display setter (state unchanged, no
events); consequently a display-triggered model write whose setter stores
the written value and synchronously fires the model notifier causes no
display write at all — no second, divergent display write. -/
theorem reconciliation_short_circuit_no_echo :
    (∀ m : Mapping,
      m.model_property_notifications_disabled = true →
      m.model_value = convWidgetToModel m.converter m.widget_value →
      onModelNotification m = ⟨m, [], false⟩)
    ∧
    (∀ m : Mapping,
      m.widget_property_notifications_disabled = false →
      m.model_setter_fires = true →
      m.has_model_notifier = true →
      m.model_setter_store (convWidgetToModel m.converter m.widget_value)
        = some (convWidgetToModel m.converter m.widget_value) →
      widgetWrites
          (onWidgetPropertyNotification SUBMIT_POLICY_AUTO m).events = []
      ∧ (onWidgetPropertyNotification SUBMIT_POLICY_AUTO m).st.widget_value
          = m.widget_value) := by
  constructor
  · exact onModelNotification_shortCircuit
  · intro m hw hf hn hstore
    have hw' : ¬ (m.widget_property_notifications_disabled = true) := by
      simp [hw]
    simp only [onWidgetPropertyNotification]
    rw [if_neg hw', if_pos trivial]
    simp only [hstore]
    rw [if_pos ⟨hf, hn⟩]
    rw [onModelNotification_shortCircuit _ rfl rfl]
    exact ⟨rfl, rfl⟩

/-- Witness for C1 at `mappingSuppressedEqual` (first part) and
`mappingEcho` (second part). -/
theorem reconciliation_short_circuit_no_echo_witness :
    (onModelNotification mappingSuppressedEqual
      = ⟨mappingSuppressedEqual, [], false⟩)
    ∧ widgetWrites
        (onWidgetPropertyNotification SUBMIT_POLICY_AUTO mappingEcho).events
        = []
    ∧ (onWidgetPropertyNotification SUBMIT_POLICY_AUTO mappingEcho).st.widget_value = mappingEcho.widget_value :=
  ⟨reconciliation_short_circuit_no_echo.1 mappingSuppressedEqual rfl rfl,
   (reconciliation_short_circuit_no_echo.2 mappingEcho rfl rfl rfl rfl).1,
   (reconciliation_short_circuit_no_echo.2 mappingEcho rfl rfl rfl rfl).2⟩

/-- Claim C2: under `MANUAL` policy a display-side change notification
performs zero model writes and leaves the binding untouched; `submit()`
(on the UI thread) then performs, for every binding, exactly one model
write carrying `converter.widget_to_model` of that binding's display
value at submit time (provided no handler raises — a raising model setter
aborts the loop), by forcing the policy to `AUTO` for the loop and
restoring the prior policy afterwards even when a model write raises. -/
theorem manual_batching_submit :
    (∀ m : Mapping,
      onWidgetPropertyNotification SUBMIT_POLICY_MANUAL m = ⟨m, [], false⟩)
    ∧
    (∀ mp : Mapper,
      (∀ p ∈ mp.mappings,
        p.2.widget_property_notifications_disabled = false ∧
        (onWidgetPropertyNotification SUBMIT_POLICY_AUTO p.2).raised
          = false) →
      modelWritesTagged (Mapper.submit mp).events
        = mp.mappings.map
            (fun p => (p.1, convWidgetToModel p.2.converter p.2.widget_value)))
    ∧
    (∀ mp : Mapper, (Mapper.submit mp).st.submit_policy = mp.submit_policy) :=
  ⟨onWidget_manual,
   fun mp h => runAll_submit_modelWrites mp.mappings h,
   fun _ => rfl⟩

/-- Witness for C2 at `mapperManualTwo`: its two bindings receive exactly
the model writes 9 and 2, and the `MANUAL` policy is restored. -/
theorem manual_batching_submit_witness :
    modelWritesTagged (Mapper.submit mapperManualTwo).events = [(0, 9), (1, 2)]
    ∧ (Mapper.submit mapperManualTwo).st.submit_policy
        = SUBMIT_POLICY_MANUAL :=
  ⟨(manual_batching_submit.2.1 mapperManualTwo (by decide)).trans (by decide),
   manual_batching_submit.2.2 mapperManualTwo⟩

/-- Claim C3: starting from a binding with both suppression flags clear —
the state outside any handler execution — each propagation handler leaves
both flags clear when it returns, in every branch, including the branches
where the model setter or the display setter raises (the flag is cleared
in the `finally` block before the exception surfaces). -/
theorem suppression_flags_released :
    ∀ (policy : Int) (m : Mapping),
      flagsClear m →
      flagsClear (onWidgetPropertyNotification policy m).st
      ∧ flagsClear (onModelNotification m).st := by
  intro policy m hc
  obtain ⟨hw, hm⟩ := hc
  refine ⟨?_, onModelNotification_wdis m hw,
    (onModelNotification_mdis m).trans hm⟩
  simp only [onWidgetPropertyNotification, flagsClear]
  split
  · exact ⟨hw, hm⟩
  · split
    · split
      · exact ⟨hw, rfl⟩
      · split
        · exact ⟨onModelNotification_wdis _ hw, rfl⟩
        · exact ⟨hw, rfl⟩
    · exact ⟨hw, hm⟩

/-- Witness for C3 at `mappingRaisingSetter` under `AUTO` policy: the
model setter raises, yet both flags end clear for both handlers. -/
theorem suppression_flags_released_witness :
    flagsClear mappingRaisingSetter
    ∧ flagsClear
        (onWidgetPropertyNotification SUBMIT_POLICY_AUTO
          mappingRaisingSetter).st
    ∧ flagsClear (onModelNotification mappingRaisingSetter).st :=
  ⟨⟨rfl, rfl⟩,
   (suppression_flags_released SUBMIT_POLICY_AUTO mappingRaisingSetter
      ⟨rfl, rfl⟩).1,
   (suppression_flags_released SUBMIT_POLICY_AUTO mappingRaisingSetter
      ⟨rfl, rfl⟩).2⟩

/-- Claim C4 counterexample: in the state the claim itself singles out —
the model-side suppression flag set and the converted display value equal
to the model value — `revert()` on the UI thread performs no display
write at all: `Mapper.revert` calls `_on_model_notification`, whose
reconciliation short-circuit it does not bypass, contradicting "writes
... to the display setter of every binding unconditionally, ignoring the
suppression/reconciliation short-circuit". -/
theorem revert_not_unconditional_cex :
    mappingSuppressedEqual.model_property_notifications_disabled = true
    ∧ convWidgetToModel mappingSuppressedEqual.converter
        mappingSuppressedEqual.widget_value
        = mappingSuppressedEqual.model_value
    ∧ (Mapper.revert mapperSuppressedEqual).events = []
    ∧ widgetWritesTagged (Mapper.revert mapperSuppressedEqual).events = [] :=
  ⟨rfl, rfl, rfl, rfl⟩

/-- Claim C4 (amended): `revert()`, invoked on the UI thread, runs the
model→display propagation step for every binding; that step still honors
the reconciliation short-circuit, but in every state where the bindings'
model-side suppression flags are clear — that is, in every state outside
handler execution — it writes `converter.model_to_widget` of the current
model value to the display setter of every binding (one write per
binding, regardless of whether the display already holds that value),
provided no display setter raises (a raise aborts the loop). -/
theorem revert_overwrites_when_unsuppressed :
    ∀ mp : Mapper,
      (∀ p ∈ mp.mappings,
        p.2.model_property_notifications_disabled = false ∧
        (onModelNotification p.2).raised = false) →
      widgetWritesTagged (Mapper.revert mp).events
        = mp.mappings.map
            (fun p => (p.1, convModelToWidget p.2.converter p.2.model_value)) :=
  fun mp h => runAll_revert_widgetWrites mp.mappings h

/-- Witness for C4's amended claim at a two-binding mapper in `MANUAL`
policy: both displays are overwritten with the model values (7 and 0),
even though binding 1's display might already agree. -/
theorem revert_overwrites_when_unsuppressed_witness :
    widgetWritesTagged (Mapper.revert mapperManualTwo).events
      = [(0, 7), (1, 0)] :=
  (revert_overwrites_when_unsuppressed mapperManualTwo (by decide)).trans
    (by decide)

/-- Claim C5 (code bug): `add_mapping` with a getter-only property
descriptor and `model_setter=None` does fail at construction time, but
not with the dedicated read-only error: the raise comes from
`functools.partial(attr.fset, model)` rejecting `None` with a generic
`TypeError('the first argument must be callable')`.  The dedicated
read-only raise (`'Attribute ... of model is readonly.'`) is dead code:
its guard tests `model_getter is None` immediately after `model_getter`
was rebound to a `functools.partial` object, which is never `None` —
the code contradicts its own read-only error message. -/
theorem readonly_model_raises_generic_typeerror :
    (add_mapping Mapper.init widgetLineEdit modelReadOnlyProp
        (ModelGetterArg.pyStr "temperature") false ModelSetterArg.pyNone
        "" none).2
      = some ⟨PyExcType.typeError, "the first argument must be callable"⟩
    ∧ (add_mapping Mapper.init widgetLineEdit modelReadOnlyProp
        (ModelGetterArg.pyStr "temperature") false ModelSetterArg.pyNone
        "" none).2
      ≠ some ⟨PyExcType.exception,
          "Attribute temperature of model is readonly."⟩ := by
  constructor
  · rfl
  · decide

/-- Claim C6 counterexample: two different display-side introspection
failures — property not found (`widgetNoSuchProperty`) and property
without a notify signal (`widgetNoNotify`) — both raise the same Python
exception type, the bare `Exception`; only the message texts differ, so a
caller cannot tell which check failed by the error's type alone. -/
theorem display_introspection_same_type_cex :
    (add_mapping Mapper.init widgetNoSuchProperty modelPlain
        (ModelGetterArg.pyStr "data") false ModelSetterArg.pyNone "" none).2
      = some ⟨PyExcType.exception,
          "Property text of widget QLineEdit not available."⟩
    ∧ (add_mapping Mapper.init widgetNoNotify modelPlain
        (ModelGetterArg.pyStr "data") false ModelSetterArg.pyNone "" none).2
      = some ⟨PyExcType.exception,
          "Property text of widget QLineEdit has no notify signal."⟩ := by
  constructor <;> rfl

/-- Claim C6 (amended): the four display-side property introspection
failures of `add_mapping` — property not found, no notify signal, not
readable, not writable — all raise the same generic `Exception` type;
they are distinguished by four distinct message texts, not by the
error's type.  Stated for an explicitly given property name (the guessed
name goes through the same code path). -/
theorem display_introspection_distinct_messages :
    (∀ (mp : Mapper) (w : Widget) (mo : Model) (mg : ModelGetterArg)
        (n : Bool) (ms : ModelSetterArg) (pname : String)
        (cv : Option Converter),
      (mp.mappings.lookup w.id).isSome = false →
      pname ≠ "" →
      (w.properties.lookup pname = none →
        (add_mapping mp w mo mg n ms pname cv).2
          = some ⟨PyExcType.exception,
              "Property " ++ pname ++ " of widget " ++ w.className
                ++ " not available."⟩)
      ∧ (∀ meta : MetaProperty, w.properties.lookup pname = some meta →
          meta.hasNotifySignal = false →
          (add_mapping mp w mo mg n ms pname cv).2
            = some ⟨PyExcType.exception,
                "Property " ++ pname ++ " of widget " ++ w.className
                  ++ " has no notify signal."⟩)
      ∧ (∀ meta : MetaProperty, w.properties.lookup pname = some meta →
          meta.hasNotifySignal = true → meta.isReadable = false →
          (add_mapping mp w mo mg n ms pname cv).2
            = some ⟨PyExcType.exception,
                "Property " ++ pname ++ " of widget " ++ w.className
                  ++ " is not readable."⟩)
      ∧ (∀ meta : MetaProperty, w.properties.lookup pname = some meta →
          meta.hasNotifySignal = true → meta.isReadable = true →
          meta.isWritable = false →
          (add_mapping mp w mo mg n ms pname cv).2
            = some ⟨PyExcType.exception,
                "Property " ++ pname ++ " of widget " ++ w.className
                  ++ " is not writable."⟩))
    ∧ ([ "Property text of widget QLineEdit not available.",
         "Property text of widget QLineEdit has no notify signal.",
         "Property text of widget QLineEdit is not readable.",
         "Property text of widget QLineEdit is not writable." ] :
         List String).Nodup := by
  constructor
  · intro mp w mo mg n ms pname cv h0 hname
    have h0' : ¬ ((mp.mappings.lookup w.id).isSome = true) := by simp [h0]
    refine ⟨?_, ?_, ?_, ?_⟩
    · intro hlk
      simp only [add_mapping, if_neg h0', if_neg hname, hlk]
    · intro meta hlk hn
      simp only [add_mapping, if_neg h0', if_neg hname, hlk]
      rw [if_pos (by simp [hn])]
    · intro meta hlk hn hr
      simp only [add_mapping, if_neg h0', if_neg hname, hlk]
      rw [if_neg (by simp [hn]), if_pos (by simp [hr])]
    · intro meta hlk hn hr hwr
      simp only [add_mapping, if_neg h0', if_neg hname, hlk]
      rw [if_neg (by simp [hn]), if_neg (by simp [hr]),
        if_pos (by simp [hwr])]
  · decide

/-- Witness for C6's amended claim: the four concrete misconfigured line
edits produce the four distinct messages, all of type `Exception`. -/
theorem display_introspection_distinct_messages_witness :
    (add_mapping Mapper.init widgetNoSuchProperty modelPlain
        (ModelGetterArg.pyStr "data") false ModelSetterArg.pyNone "text"
        none).2
      = some ⟨PyExcType.exception,
          "Property text of widget QLineEdit not available."⟩
    ∧ (add_mapping Mapper.init widgetNoNotify modelPlain
        (ModelGetterArg.pyStr "data") false ModelSetterArg.pyNone "text"
        none).2
      = some ⟨PyExcType.exception,
          "Property text of widget QLineEdit has no notify signal."⟩
    ∧ (add_mapping Mapper.init widgetNotReadable modelPlain
        (ModelGetterArg.pyStr "data") false ModelSetterArg.pyNone "text"
        none).2
      = some ⟨PyExcType.exception,
          "Property text of widget QLineEdit is not readable."⟩
    ∧ (add_mapping Mapper.init widgetNotWritable modelPlain
        (ModelGetterArg.pyStr "data") false ModelSetterArg.pyNone "text"
        none).2
      = some ⟨PyExcType.exception,
          "Property text of widget QLineEdit is not writable."⟩ :=
  ⟨(display_introspection_distinct_messages.1 Mapper.init
      widgetNoSuchProperty modelPlain (ModelGetterArg.pyStr "data") false
      ModelSetterArg.pyNone "text" none rfl (by decide)).1 rfl,
   (display_introspection_distinct_messages.1 Mapper.init widgetNoNotify
      modelPlain (ModelGetterArg.pyStr "data") false ModelSetterArg.pyNone
      "text" none rfl (by decide)).2.1 _ rfl rfl,
   (display_introspection_distinct_messages.1 Mapper.init widgetNotReadable
      modelPlain (ModelGetterArg.pyStr "data") false ModelSetterArg.pyNone
      "text" none rfl (by decide)).2.2.1 _ rfl rfl rfl,
   (display_introspection_distinct_messages.1 Mapper.init widgetNotWritable
      modelPlain (ModelGetterArg.pyStr "data") false ModelSetterArg.pyNone
      "text" none rfl (by decide)).2.2.2 _ rfl rfl rfl rfl⟩

theorem lookup_isSome_false_not_mem (wid : Nat) (l : List (Nat × Mapping))
    (h : (l.lookup wid).isSome = false) : wid ∉ l.map Prod.fst := by
  induction l with
  | nil => simp
  | cons p t ih =>
    obtain ⟨k, v⟩ := p
    simp only [List.lookup] at h
    by_cases hk : k = wid
    · subst hk
      simp at h
    · rw [show (wid == k) = false from beq_false_of_ne (fun hc => hk hc.symm)]
        at h
      simp only [List.map_cons, List.mem_cons]
      push_neg
      exact ⟨fun hc => hk hc.symm, ih h⟩

theorem add_mapping_fst (mp : Mapper) (w : Widget) (mo : Model)
    (mg : ModelGetterArg) (n : Bool) (ms : ModelSetterArg) (pn : String)
    (cv : Option Converter) :
    (add_mapping mp w mo mg n ms pn cv).1 = mp
    ∨ ((mp.mappings.lookup w.id).isSome = false
       ∧ ∃ b : Mapping, (add_mapping mp w mo mg n ms pn cv).1
          = { mp with mappings := mp.mappings ++ [(w.id, b)] }) := by
  simp only [add_mapping]
  split
  · left; rfl
  · rename_i hs
    split
    · left; rfl
    · split
      · left; rfl
      · split
        · left; rfl
        · split
          · left; rfl
          · split
            · left; rfl
            · split
              · left; rfl
              · right
                refine ⟨Bool.eq_false_iff.mpr hs, _, rfl⟩

theorem remove_mapping_fst (mp : Mapper) (wid : Nat) (wr : String) :
    (remove_mapping mp wid wr).1 = mp
    ∨ (remove_mapping mp wid wr).1
        = { mp with mappings := mp.mappings.filter (fun p => p.1 != wid) } := by
  simp only [remove_mapping]
  split
  · left; rfl
  · right; rfl

theorem remove_mapping_nodup (mp : Mapper) (wid : Nat) (wr : String)
    (h : (mappingKeys mp).Nodup) :
    (mappingKeys (remove_mapping mp wid wr).1).Nodup := by
  rcases remove_mapping_fst mp wid wr with heq | heq
  · rw [heq]; exact h
  · rw [heq]
    exact ((List.filter_sublist _).map Prod.fst).nodup h

theorem applyOp_nodup (mp : Mapper) (op : RegOp)
    (h : (mappingKeys mp).Nodup) : (mappingKeys (applyOp mp op)).Nodup := by
  cases op with
  | add w mo mg n ms pn cv =>
    rcases add_mapping_fst mp w mo mg n ms pn cv with heq | ⟨hs, b, heq⟩
    · simp only [applyOp, heq]; exact h
    · have hmem := lookup_isSome_false_not_mem w.id mp.mappings hs
      simp only [applyOp, heq, mappingKeys, List.map_append]
      rw [List.nodup_append]
      refine ⟨h, List.nodup_singleton _, ?_⟩
      intro x hx hx'
      simp only [List.map_cons, List.map_nil, List.mem_singleton] at hx'
      subst hx'
      exact hmem hx
  | remove wid wr => exact remove_mapping_nodup mp wid wr h
  | clear =>
    show (mappingKeys (clear_mapping mp)).Nodup
    unfold clear_mapping
    generalize mp.mappings.map Prod.fst = ks
    induction ks generalizing mp with
    | nil => exact h
    | cons k t ih =>
      exact ih _ (remove_mapping_nodup mp k "" h)

theorem applyOps_nodup (ops : List RegOp) :
    (mappingKeys (applyOps ops)).Nodup := by
  suffices hg : ∀ mp : Mapper, (mappingKeys mp).Nodup →
      (mappingKeys (ops.foldl applyOp mp)).Nodup by
    exact hg Mapper.init List.nodup_nil
  induction ops with
  | nil => exact fun mp h => h
  | cons op t ih => exact fun mp h => ih _ (applyOp_nodup mp op h)

/-- Claim C7: `add_mapping` on an already-bound display raises the
"already mapped" `Exception` and returns the registry unchanged;
`remove_mapping` on an unbound display raises the "is not mapped"
`Exception` (and leaves the registry unchanged); consequently every
sequence of registry operations started from a fresh mapper keeps the
display-endpoint keys duplicate-free — at most one binding per display
endpoint — and removing twice is an error, not a silent no-op. -/
theorem binding_registry_uniqueness :
    (∀ (mp : Mapper) (w : Widget) (mo : Model) (mg : ModelGetterArg)
        (n : Bool) (ms : ModelSetterArg) (pn : String)
        (cv : Option Converter),
      (mp.mappings.lookup w.id).isSome = true →
      add_mapping mp w mo mg n ms pn cv
        = (mp, some ⟨PyExcType.exception,
            "Widget " ++ w.repr ++ " already mapped."⟩))
    ∧ (∀ (mp : Mapper) (wid : Nat) (wr : String),
      (mp.mappings.lookup wid).isNone = true →
      remove_mapping mp wid wr
        = (mp, some ⟨PyExcType.exception,
            "Widget " ++ wr ++ " is not mapped."⟩))
    ∧ (∀ ops : List RegOp, (mappingKeys (applyOps ops)).Nodup) := by
  refine ⟨?_, ?_, applyOps_nodup⟩
  · intro mp w mo mg n ms pn cv hdup
    simp only [add_mapping, if_pos hdup]
  · intro mp wid wr hnone
    simp only [remove_mapping, if_pos hnone]

/-- Witness for C7: re-adding the bound line edit fails with "already
mapped" and the registry is returned unchanged; removing from the empty
registry fails with "is not mapped". -/
theorem binding_registry_uniqueness_witness :
    add_mapping mapperWithLineEdit widgetLineEdit modelPlain
        (ModelGetterArg.pyStr "data") false ModelSetterArg.pyNone "" none
      = (mapperWithLineEdit, some ⟨PyExcType.exception,
          "Widget " ++ widgetLineEdit.repr ++ " already mapped."⟩)
    ∧ remove_mapping Mapper.init 7 "<QLineEdit object>"
      = (Mapper.init, some ⟨PyExcType.exception,
          "Widget " ++ "<QLineEdit object>" ++ " is not mapped."⟩)
    ∧ (mappingKeys (applyOps [])).Nodup :=
  ⟨binding_registry_uniqueness.1 mapperWithLineEdit widgetLineEdit modelPlain
     (ModelGetterArg.pyStr "data") false ModelSetterArg.pyNone "" none rfl,
   binding_registry_uniqueness.2.1 Mapper.init 7 "<QLineEdit object>" rfl,
   binding_registry_uniqueness.2.2 []⟩

/-- Claim C8: with an empty display property name, the bound property is
resolved from the widget's concrete type by the fixed ordered
`isinstance` table — line edit (text-editable field) → `text`, abstract
button (toggleable control) → `checked`, spin box / double spin box /
slider (numeric or range input) → `value`, combo box (choice selector) →
`currentIndex` — first structural match winning; a successful
`add_mapping` registers the binding under the guessed name, and with no
match construction fails with the "could not be guessed" error. -/
theorem widget_property_guessing :
    (∀ t : WidgetType, t.isLineEdit = true →
      guessWidgetProperty t = some "text")
    ∧ (∀ t : WidgetType, t.isLineEdit = false → t.isAbstractButton = true →
      guessWidgetProperty t = some "checked")
    ∧ (∀ t : WidgetType, t.isLineEdit = false → t.isAbstractButton = false →
      (t.isSpinBox || t.isDoubleSpinBox || t.isAbstractSlider) = true →
      guessWidgetProperty t = some "value")
    ∧ (∀ t : WidgetType, t.isLineEdit = false → t.isAbstractButton = false →
      (t.isSpinBox || t.isDoubleSpinBox || t.isAbstractSlider) = false →
      t.isComboBox = true → guessWidgetProperty t = some "currentIndex")
    ∧ (∀ (mp : Mapper) (w : Widget) (mo : Model) (mg : ModelGetterArg)
        (n : Bool) (ms : ModelSetterArg) (cv : Option Converter),
      (mp.mappings.lookup w.id).isSome = false →
      guessWidgetProperty w.ty = none →
      add_mapping mp w mo mg n ms "" cv
        = (mp, some ⟨PyExcType.exception,
            "Property of widget " ++ w.repr ++ " could not be guessed."⟩))
    ∧ (∀ (mp : Mapper) (w : Widget) (mo : Model) (mg : ModelGetterArg)
        (n : Bool) (ms : ModelSetterArg) (cv : Option Converter)
        (pname : String) (meta : MetaProperty)
        (sem : (Int → Option Int) × Bool),
      (mp.mappings.lookup w.id).isSome = false →
      guessWidgetProperty w.ty = some pname →
      w.properties.lookup pname = some meta →
      meta.hasNotifySignal = true → meta.isReadable = true →
      meta.isWritable = true →
      resolveModelSetter mo mg ms = Except.ok sem →
      add_mapping mp w mo mg n ms "" cv
        = ({ mp with mappings := mp.mappings
              ++ [(w.id, mkBinding pname meta mo n sem cv)] }, none)) := by
  refine ⟨?_, ?_, ?_, ?_, ?_, ?_⟩
  · intro t h; simp [guessWidgetProperty, h]
  · intro t h1 h2; simp [guessWidgetProperty, h1, h2]
  · intro t h1 h2 h3; simp [guessWidgetProperty, h1, h2, h3]
  · intro t h1 h2 h3 h4
    simp only [guessWidgetProperty, h1, h2, h3, h4]
    simp
  · intro mp w mo mg n ms cv h0 hg
    have h0' : ¬ ((mp.mappings.lookup w.id).isSome = true) := by simp [h0]
    simp only [add_mapping, if_neg h0', hg]
    rw [if_pos trivial]
  · intro mp w mo mg n ms cv pname meta sem h0 hg hlk hn hr hw hres
    have h0' : ¬ ((mp.mappings.lookup w.id).isSome = true) := by simp [h0]
    simp only [add_mapping, if_neg h0', hg]
    rw [if_pos trivial]
    simp only [hlk]
    rw [if_neg (by simp [hn]), if_neg (by simp [hr]), if_neg (by simp [hw]),
      hres]

/-- Witness for C8: a line edit guesses `text`, a combo box guesses
`currentIndex`, a bare widget fails with the "could not be guessed"
error, and a successful empty-name `add_mapping` registers the binding
under the guessed `text` property. -/
theorem widget_property_guessing_witness :
    guessWidgetProperty lineEditType = some "text"
    ∧ guessWidgetProperty comboBoxType = some "currentIndex"
    ∧ add_mapping Mapper.init widgetPlain modelPlain
        (ModelGetterArg.pyStr "data") false ModelSetterArg.pyNone "" none
      = (Mapper.init, some ⟨PyExcType.exception,
          "Property of widget " ++ widgetPlain.repr
            ++ " could not be guessed."⟩)
    ∧ add_mapping Mapper.init widgetLineEdit modelPlain
        (ModelGetterArg.pyStr "data") false ModelSetterArg.pyNone "" none
      = ({ Mapper.init with mappings := Mapper.init.mappings
            ++ [(widgetLineEdit.id,
                 mkBinding "text" metaTextProperty modelPlain false
                   (modelPlain.setter_store, modelPlain.setter_fires)
                   none)] }, none) :=
  ⟨widget_property_guessing.1 lineEditType rfl,
   widget_property_guessing.2.2.2.1 comboBoxType rfl rfl rfl rfl,
   widget_property_guessing.2.2.2.2.1 Mapper.init widgetPlain modelPlain
     (ModelGetterArg.pyStr "data") false ModelSetterArg.pyNone none rfl rfl,
   widget_property_guessing.2.2.2.2.2 Mapper.init widgetLineEdit modelPlain
     (ModelGetterArg.pyStr "data") false ModelSetterArg.pyNone none "text"
     metaTextProperty (modelPlain.setter_store, modelPlain.setter_fires)
     rfl rfl rfl rfl rfl rfl rfl⟩

/-- Claim C9: setting the submit policy to a value outside
`{SUBMIT_POLICY_AUTO, SUBMIT_POLICY_MANUAL}` raises the "Unknown submit
policy" `Exception` and returns the mapper with its stored policy
unchanged; after setting it to a member of that set, reading the policy
returns exactly the value that was set. -/
theorem submit_policy_validation :
    (∀ (mp : Mapper) (p : Int),
      ¬ (p = SUBMIT_POLICY_AUTO ∨ p = SUBMIT_POLICY_MANUAL) →
      submit_policy_set mp p
        = (mp, some ⟨PyExcType.exception,
            "Unknown submit policy " ++ toString p⟩))
    ∧ (∀ (mp : Mapper) (p : Int),
      (p = SUBMIT_POLICY_AUTO ∨ p = SUBMIT_POLICY_MANUAL) →
      (submit_policy_set mp p).2 = none
      ∧ submit_policy_get (submit_policy_set mp p).1 = p) := by
  constructor
  · intro mp p h
    simp only [submit_policy_set, if_pos h]
  · intro mp p h
    rw [submit_policy_set, if_neg (not_not_intro h)]
    exact ⟨rfl, rfl⟩

/-- Witness for C9: policy 2 is rejected leaving `AUTO` stored; setting
`MANUAL` then reading yields `MANUAL`. -/
theorem submit_policy_validation_witness :
    submit_policy_set Mapper.init 2
      = (Mapper.init, some ⟨PyExcType.exception,
          "Unknown submit policy " ++ toString (2 : Int)⟩)
    ∧ (submit_policy_set Mapper.init SUBMIT_POLICY_MANUAL).2 = none
    ∧ submit_policy_get (submit_policy_set Mapper.init SUBMIT_POLICY_MANUAL).1
        = SUBMIT_POLICY_MANUAL :=
  ⟨submit_policy_validation.1 Mapper.init 2 (by decide),
   (submit_policy_validation.2 Mapper.init SUBMIT_POLICY_MANUAL
      (Or.inr rfl)).1,
   (submit_policy_validation.2 Mapper.init SUBMIT_POLICY_MANUAL
      (Or.inr rfl)).2⟩

/-- Claim C10: `submit()` or `revert()` invoked from any thread other
than the UI-owning thread performs no model or display writes (no
events), leaves the mapper unchanged, posts a zero-delay fire-and-forget
self-call onto the UI thread, and returns immediately without raising —
without having performed the submission or reversion. -/
theorem off_thread_submit_revert_reschedule :
    ∀ (currentThread uiThread : Nat) (mp : Mapper),
      currentThread ≠ uiThread →
      submitFromThread currentThread uiThread mp = ⟨mp, [], false, some 0⟩
      ∧ revertFromThread currentThread uiThread mp
          = ⟨mp, [], false, some 0⟩ := by
  intro ct ui mp h
  exact ⟨by rw [submitFromThread, if_pos h], by rw [revertFromThread, if_pos h]⟩

/-- Witness for C10: calling from thread 1 while thread 0 owns the UI. -/
theorem off_thread_submit_revert_reschedule_witness :
    submitFromThread 1 0 mapperManualTwo = ⟨mapperManualTwo, [], false, some 0⟩
    ∧ revertFromThread 1 0 mapperManualTwo
        = ⟨mapperManualTwo, [], false, some 0⟩ :=
  off_thread_submit_revert_reschedule 1 0 mapperManualTwo (by decide)
